import Mathlib

/-!
Verification of the cloudevents crate (CloudEvents spec versions 0.2 and 1.0):
a shallow embedding of the envelope data model, the per-version builders with
their finalize-time validation, and the JSON encode/decode contract.

Sources embedded:
  - src/cloudevents/src/common/data.rs       (Data)
  - src/cloudevents/src/common/extension.rs  (ExtensionValue)
  - src/cloudevents/src/v1_0/event.rs        (CloudEventV1_0, accessors)
  - src/cloudevents/src/v1_0/builder.rs      (CloudEventV1_0Builder::build)
  - src/cloudevents/src/v0_2/event.rs        (CloudEventV0_2, accessors)
  - src/cloudevents/src/v0_2/builder.rs      (CloudEventV0_2Builder::build)
  - src/cloudevents/src/event.rs             (CloudEvent, untagged wrapper)

The two external collaborators called by `build()` are modelled from the spec
(they are separate crates, not code of this repository): `url::Url::parse`
and `chrono::DateTime::parse_from_rfc3339` / RFC3339 printing.  Rust
`HashMap<String, ExtensionValue>` is modelled as an association list, and
`serde_json::Value` as the inductive `Json` below.
-/

/-- Model of `serde_json::Value`: a JSON tree.  Numbers are modelled as `Int`
(no claim under verification inspects numeric payloads). -/
inductive Json where
  | null : Json
  | bool (b : Bool) : Json
  | num (n : Int) : Json
  | str (s : String) : Json
  | arr (xs : List Json) : Json
  | obj (fields : List (String × Json)) : Json

/-- `Data` from src/cloudevents/src/common/data.rs: the event payload union.
`stringOrBinary` holds a string (possibly base64-encoded binary), `object`
holds a structured JSON value.  Serde representation is untagged. -/
inductive Data where
  | stringOrBinary (s : String) : Data
  | object (v : Json) : Data

/-- `ExtensionValue` from src/cloudevents/src/common/extension.rs: the
extension-attribute value union, serde-untagged. -/
inductive ExtensionValue where
  | string (s : String) : ExtensionValue
  | object (v : Json) : ExtensionValue

/-- Modelled from the spec: the result of the external `url` crate's
`Url::parse`.  `build()` only distinguishes success, the
`RelativeUrlWithoutBase` error, and any other error (whose display text it
propagates), so the model carries exactly that. -/
inductive UrlParseError where
  | relativeUrlWithoutBase : UrlParseError
  | other (msg : String) : UrlParseError

/-- Character allowed in a URI scheme after the first (RFC 3986 / WHATWG). -/
def isSchemeChar (c : Char) : Bool :=
  c.isAlphanum || c == '+' || c == '-' || c == '.'

/-- Split a candidate URI at its first colon, provided all characters before
the colon are scheme characters; `none` when there is no such colon. -/
def splitScheme : List Char → Option (List Char × List Char)
  | [] => none
  | c :: cs =>
    if c == ':' then some ([], cs)
    else if isSchemeChar c then (splitScheme cs).map (fun p => (c :: p.1, p.2))
    else none

/-- Modelled from the spec: the external `url` crate's `Url::parse` (the
repository calls it in both builders).  A string with no valid scheme prefix
fails with `RelativeUrlWithoutBase`; a special-scheme URL (`http`, `https`,
`ws`, `wss`, `ftp`) requires a nonempty host after `//`, failing with the
crate's "empty host" error otherwise; any other valid scheme (e.g. `urn`,
`mailto`) parses as an absolute, non-hierarchical URI. -/
def Url.parse (s : String) : Except UrlParseError Unit :=
  match splitScheme s.toList with
  | none => .error .relativeUrlWithoutBase
  | some (sch, rest) =>
    match sch with
    | [] => .error .relativeUrlWithoutBase
    | c :: _ =>
      if !c.isAlpha then .error .relativeUrlWithoutBase
      else if String.mk sch ∈ ["http", "https", "ws", "wss", "ftp"] then
        match rest with
        | '/' :: '/' :: hostRest =>
          if (hostRest.takeWhile (fun d => d ≠ '/' && d ≠ '?' && d ≠ '#')).isEmpty
          then .error (.other "empty host")
          else .ok ()
        | _ => .error (.other "empty host")
      else .ok ()

/-- The source/schema validation block shared verbatim by both builders
(src/cloudevents/src/v1_0/builder.rs lines 106-116 and 126-134,
src/cloudevents/src/v0_2/builder.rs lines 99-109 and 118-128):
`Ok(_) | Err(ParseError::RelativeUrlWithoutBase)` keeps the raw string,
any other parse error is propagated as the build error. -/
def validateUri (s : String) : Except String String :=
  match Url.parse s with
  | .ok _ => .ok s
  | .error .relativeUrlWithoutBase => .ok s
  | .error (.other e) => .error e

/-- The optional-field form of `validateUri`, as both builders apply it to
the schema-reference field (`dataschema` v1.0 / `schemaurl` v0.2). -/
def validateUriOpt : Option String → Except String (Option String)
  | some s => (validateUri s).map some
  | none => .ok none

/-- Modelled from the spec: `chrono::DateTime<FixedOffset>`, a calendar
timestamp with a fixed UTC offset in minutes. -/
structure DateTimeFO where
  year : Nat
  month : Nat
  day : Nat
  hour : Nat
  minute : Nat
  second : Nat
  offMin : Int
deriving DecidableEq, Repr

/-- The field ranges every timestamp produced by the RFC3339 parser (or a
sane wall clock) satisfies. -/
def DateTimeFO.valid (d : DateTimeFO) : Bool :=
  d.year ≤ 9999 && 1 ≤ d.month && d.month ≤ 12 && 1 ≤ d.day && d.day ≤ 31 &&
  d.hour ≤ 23 && d.minute ≤ 59 && d.second ≤ 59 && d.offMin.natAbs ≤ 23 * 60 + 59

/-- Read exactly `k` decimal digits, most significant first, extending the
accumulator `acc`. -/
def readDigitsAux : Nat → Nat → List Char → Option (Nat × List Char)
  | 0, acc, cs => some (acc, cs)
  | k + 1, acc, c :: cs =>
    if c.isDigit then readDigitsAux k (acc * 10 + (c.toNat - 48)) cs else none
  | _ + 1, _, [] => none

/-- Read exactly `k` decimal digits as a number. -/
def readDigits (k : Nat) (cs : List Char) : Option (Nat × List Char) :=
  readDigitsAux k 0 cs

/-- Consume one expected character. -/
def expectChar (c : Char) : List Char → Option (List Char)
  | d :: ds => if d == c then some ds else none
  | [] => none

/-- Parse the `HH:MM` magnitude of a numeric UTC offset, requiring end of
input afterwards. -/
def parseOffsetMag (cs : List Char) : Option Nat :=
  (readDigits 2 cs).bind fun p1 =>
  (expectChar ':' p1.2).bind fun cs2 =>
  (readDigits 2 cs2).bind fun p2 =>
  if p1.1 ≤ 23 && p2.1 ≤ 59 && p2.2.isEmpty then some (p1.1 * 60 + p2.1) else none

/-- Parse an RFC3339 UTC-offset suffix: `Z` (exactly, at end of input) or
`±HH:MM`. -/
def parseOffset : List Char → Option Int
  | [] => none
  | c :: rest =>
    if c == 'Z' then (if rest.isEmpty then some 0 else none)
    else if c == '+' then
      match parseOffsetMag rest with
      | some n => some ((n : Int))
      | none => none
    else if c == '-' then
      match parseOffsetMag rest with
      | some n => some (-(n : Int))
      | none => none
    else none

/-- Modelled from the spec: strict RFC3339 timestamp parsing
(`YYYY-MM-DDTHH:MM:SS` followed by `Z` or `±HH:MM`), as performed by the
external `chrono::DateTime::parse_from_rfc3339` which both builders call. -/
def rfc3339ParseCore (cs : List Char) : Option DateTimeFO :=
  (readDigits 4 cs).bind fun y =>
  (expectChar '-' y.2).bind fun cs1 =>
  (readDigits 2 cs1).bind fun mo =>
  (expectChar '-' mo.2).bind fun cs2 =>
  (readDigits 2 cs2).bind fun d =>
  (expectChar 'T' d.2).bind fun cs3 =>
  (readDigits 2 cs3).bind fun h =>
  (expectChar ':' h.2).bind fun cs4 =>
  (readDigits 2 cs4).bind fun mi =>
  (expectChar ':' mi.2).bind fun cs5 =>
  (readDigits 2 cs5).bind fun sec =>
  (parseOffset sec.2).bind fun off =>
  if y.1 ≤ 9999 && 1 ≤ mo.1 && mo.1 ≤ 12 && 1 ≤ d.1 && d.1 ≤ 31 &&
     h.1 ≤ 23 && mi.1 ≤ 59 && sec.1 ≤ 59 then
    some ⟨y.1, mo.1, d.1, h.1, mi.1, sec.1, off⟩
  else none

/-- RFC3339 parsing on strings; errors carry the parser's diagnostic text,
propagated unchanged by `build()` (the `?` operator on
`DateTime::parse_from_rfc3339`). -/
def rfc3339Parse (s : String) : Except String DateTimeFO :=
  match rfc3339ParseCore s.toList with
  | some dt => .ok dt
  | none => .error "input contains invalid characters"

/-- Print `n` zero-padded to `k` digits (least significant digit pushed onto
`acc` first). -/
def printNatAux : Nat → Nat → List Char → List Char
  | 0, _, acc => acc
  | k + 1, n, acc => printNatAux k (n / 10) (Nat.digitChar (n % 10) :: acc)

/-- `n` zero-padded to `k` decimal digits. -/
def padNat (k n : Nat) : List Char := printNatAux k n []

/-- Modelled from the spec: chrono's RFC3339 rendering of a fixed-offset
timestamp (`to_rfc3339`, used by serde serialization of the `time` field),
with the fixed offset preserved and rendered as `±HH:MM`. -/
def rfc3339PrintList (d : DateTimeFO) : List Char :=
  padNat 4 d.year ++ '-' :: padNat 2 d.month ++ '-' :: padNat 2 d.day ++
  'T' :: padNat 2 d.hour ++ ':' :: padNat 2 d.minute ++ ':' :: padNat 2 d.second ++
  (if 0 ≤ d.offMin then '+' else '-') ::
    (padNat 2 (d.offMin.natAbs / 60) ++ ':' :: padNat 2 (d.offMin.natAbs % 60))

/-- RFC3339 rendering as a string. -/
def rfc3339Print (d : DateTimeFO) : String := String.mk (rfc3339PrintList d)

/-- `CloudEventV1_0` from src/cloudevents/src/v1_0/event.rs: the v1.0
envelope record.  Field order matches the struct declaration (which is also
the serde serialization order). -/
structure CloudEventV1_0 where
  event_type : String
  specversion : String
  source : String
  id : String
  time : Option DateTimeFO
  subject : Option String
  dataschema : Option String
  datacontenttype : Option String
  data : Option Data
  extensions : Option (List (String × ExtensionValue))

/-- `CloudEventV1_0::new` (src/cloudevents/src/v1_0/event.rs lines 36-59):
the only constructor; hard-codes `specversion = "1.0"`. -/
def CloudEventV1_0.new (event_type source id : String) (time : Option DateTimeFO)
    (subject dataschema datacontenttype : Option String) (data : Option Data)
    (extensions : Option (List (String × ExtensionValue))) : CloudEventV1_0 :=
  ⟨event_type, "1.0", source, id, time, subject, dataschema, datacontenttype,
    data, extensions⟩

/-- Accessor `event_id` (the field is named `id`). -/
def CloudEventV1_0.event_id (e : CloudEventV1_0) : String := e.id

/-- Accessor `event_time`. -/
def CloudEventV1_0.event_time (e : CloudEventV1_0) : Option DateTimeFO := e.time

/-- `CloudEventV0_2` from src/cloudevents/src/v0_2/event.rs: the v0.2
envelope record. -/
structure CloudEventV0_2 where
  event_type : String
  specversion : String
  source : String
  id : String
  time : Option DateTimeFO
  schemaurl : Option String
  contenttype : Option String
  data : Option Data
  extensions : Option (List (String × ExtensionValue))

/-- `CloudEventV0_2::new` (src/cloudevents/src/v0_2/event.rs lines 33-54):
hard-codes `specversion = "0.2"`. -/
def CloudEventV0_2.new (event_type source id : String) (time : Option DateTimeFO)
    (schemaurl contenttype : Option String) (data : Option Data)
    (extensions : Option (List (String × ExtensionValue))) : CloudEventV0_2 :=
  ⟨event_type, "0.2", source, id, time, schemaurl, contenttype, data, extensions⟩

/-- Accessor `event_id` for v0.2. -/
def CloudEventV0_2.event_id (e : CloudEventV0_2) : String := e.id

/-- Accessor `event_time` for v0.2. -/
def CloudEventV0_2.event_time (e : CloudEventV0_2) : Option DateTimeFO := e.time

/-- Accessor `schema_url` for v0.2. -/
def CloudEventV0_2.schema_url (e : CloudEventV0_2) : Option String := e.schemaurl

/-- `CloudEvent` from src/cloudevents/src/event.rs: the version-polymorphic
wrapper (serde-untagged, variants in declaration order V1_0 then V0_2). -/
inductive CloudEvent where
  | V1_0 (e : CloudEventV1_0) : CloudEvent
  | V0_2 (e : CloudEventV0_2) : CloudEvent

/-- `CloudEventV1_0Builder` from src/cloudevents/src/v1_0/builder.rs:
every slot absent by default, raw strings for the validated fields. -/
structure CloudEventV1_0Builder where
  event_type : Option String
  source : Option String
  id : Option String
  time : Option String
  subject : Option String
  dataschema : Option String
  datacontenttype : Option String
  data : Option Data
  extensions : Option (List (String × ExtensionValue))

/-- `CloudEventV1_0Builder::default`: all fields unset. -/
def CloudEventV1_0Builder.default : CloudEventV1_0Builder :=
  ⟨none, none, none, none, none, none, none, none, none⟩

/-- The v1.0 time block (src/cloudevents/src/v1_0/builder.rs lines 118-124):
the literal token `"now"` resolves to the current local time (`now`), any
other string is parsed strictly as RFC3339, absence stays absent. -/
def resolveTimeV1 (now : DateTimeFO) : Option String → Except String (Option DateTimeFO)
  | some t => if t = "now" then .ok (some now) else (rfc3339Parse t).map some
  | none => .ok none

/-- The v0.2 time block (src/cloudevents/src/v0_2/builder.rs lines 111-117):
no `"now"` shorthand, every present string is parsed strictly as RFC3339. -/
def resolveTimeV0_2 : Option String → Except String (Option DateTimeFO)
  | some t => (rfc3339Parse t).map some
  | none => .ok none

/-- `CloudEventV1_0Builder::build` (src/cloudevents/src/v1_0/builder.rs lines
102-139).  The check order is the Rust left-to-right argument evaluation of
the `CloudEventV1_0::new(...)` call: event type presence, source presence
then URI validation, id presence, time resolution, then dataschema URI
validation; the first failure short-circuits the rest.  `now` is the
environment's wall clock (`Local::now()`), consulted only for the literal
time string `"now"`.  Errors are the `format_err!` strings of the source. -/
def CloudEventV1_0Builder.build (now : DateTimeFO) (b : CloudEventV1_0Builder) :
    Except String CloudEventV1_0 :=
  match b.event_type with
  | none => .error "Event type is required"
  | some event_type =>
    match b.source with
    | none => .error "Source is required"
    | some source =>
      match validateUri source with
      | .error e => .error e
      | .ok source =>
        match b.id with
        | none => .error "Event id is required"
        | some id =>
          match resolveTimeV1 now b.time with
          | .error e => .error e
          | .ok time =>
            match validateUriOpt b.dataschema with
            | .error e => .error e
            | .ok dataschema =>
              .ok (CloudEventV1_0.new event_type source id time b.subject
                dataschema b.datacontenttype b.data b.extensions)

/-- `CloudEventV0_2Builder` from src/cloudevents/src/v0_2/builder.rs. -/
structure CloudEventV0_2Builder where
  event_type : Option String
  source : Option String
  id : Option String
  time : Option String
  schemaurl : Option String
  contenttype : Option String
  data : Option Data
  extensions : Option (List (String × ExtensionValue))

/-- `CloudEventV0_2Builder::default`: all fields unset. -/
def CloudEventV0_2Builder.default : CloudEventV0_2Builder :=
  ⟨none, none, none, none, none, none, none, none⟩

/-- `CloudEventV0_2Builder::build` (src/cloudevents/src/v0_2/builder.rs lines
95-133): event type presence, source presence then URI validation, id
presence, RFC3339 time parsing (no `"now"` shorthand), then schemaurl URI
validation, in that evaluation order. -/
def CloudEventV0_2Builder.build (b : CloudEventV0_2Builder) :
    Except String CloudEventV0_2 :=
  match b.event_type with
  | none => .error "Event type is required"
  | some event_type =>
    match b.source with
    | none => .error "Source is required"
    | some source =>
      match validateUri source with
      | .error e => .error e
      | .ok source =>
        match b.id with
        | none => .error "Event id is required"
        | some id =>
          match resolveTimeV0_2 b.time with
          | .error e => .error e
          | .ok time =>
            match validateUriOpt b.schemaurl with
            | .error e => .error e
            | .ok schemaurl =>
              .ok (CloudEventV0_2.new event_type source id time schemaurl
                b.contenttype b.data b.extensions)

/-- Serde encoding of `Data` (untagged): the string variant becomes a bare
JSON string, the object variant is the JSON value itself. -/
def encodeData : Data → Json
  | .stringOrBinary s => .str s
  | .object v => v

/-- Serde decoding of `Data` (untagged, variants tried in declaration
order): a JSON string decodes to `stringOrBinary`, any other value to
`object`. -/
def decodeData : Json → Data
  | .str s => .stringOrBinary s
  | v => .object v

/-- Serde encoding of `ExtensionValue` (untagged). -/
def encodeExtensionValue : ExtensionValue → Json
  | .string s => .str s
  | .object v => v

/-- Serde decoding of `ExtensionValue` (untagged): string first, then any
JSON value. -/
def decodeExtensionValue : Json → ExtensionValue
  | .str s => .string s
  | v => .object v

/-- A serialized optional struct field: omitted entirely when `none`
(`#[serde(skip_serializing_if = "Option::is_none")]`). -/
def optField (k : String) : Option Json → List (String × Json)
  | none => []
  | some v => [(k, v)]

/-- First-match key lookup in a JSON object, as serde's map visitor fills
struct fields by name. -/
def lookupField : List (String × Json) → String → Option Json
  | [], _ => none
  | (k, v) :: fs, key => if k = key then some v else lookupField fs key

/-- Decode a JSON string. -/
def asString : Json → Option String
  | .str s => some s
  | _ => none

/-- Decode an optional struct field (`#[serde(default)]` + `Option`):
an absent key or a JSON `null` yields `none`; any other value must decode
with `f`. -/
def getOpt (fs : List (String × Json)) (k : String) (f : Json → Option α) :
    Option (Option α) :=
  match lookupField fs k with
  | none => some none
  | some .null => some none
  | some v => (f v).map some

/-- Decode the extensions map: a JSON object whose values decode as
`ExtensionValue`. -/
def decodeExtensions : Json → Option (List (String × ExtensionValue))
  | .obj kvs => some (kvs.map (fun kv => (kv.1, decodeExtensionValue kv.2)))
  | _ => none

/-- Serde serialization of `CloudEventV1_0` as a JSON object: field order is
the struct declaration order, `type` is the rename of `event_type`, the
`time` field renders as its RFC3339 string, optional fields are omitted when
absent. -/
def CloudEventV1_0.encodeFields (e : CloudEventV1_0) : List (String × Json) :=
  [("type", Json.str e.event_type), ("specversion", Json.str e.specversion),
   ("source", Json.str e.source), ("id", Json.str e.id)]
  ++ optField "time" (e.time.map (fun t => Json.str (rfc3339Print t)))
  ++ optField "subject" (e.subject.map Json.str)
  ++ optField "dataschema" (e.dataschema.map Json.str)
  ++ optField "datacontenttype" (e.datacontenttype.map Json.str)
  ++ optField "data" (e.data.map encodeData)
  ++ optField "extensions" (e.extensions.map (fun m =>
      Json.obj (m.map (fun kv => (kv.1, encodeExtensionValue kv.2)))))

/-- Serde serialization of `CloudEventV1_0` as a JSON value. -/
def CloudEventV1_0.encode (e : CloudEventV1_0) : Json := .obj e.encodeFields

/-- Serde deserialization of `CloudEventV1_0` from a JSON value: the four
required string fields must be present (under the serde names), optional
fields default to `none`, unknown keys are ignored, and the `time` value
must be an RFC3339 string. -/
def CloudEventV1_0.decode (j : Json) : Option CloudEventV1_0 :=
  match j with
  | .obj fs =>
    ((lookupField fs "type").bind asString).bind fun event_type =>
    ((lookupField fs "specversion").bind asString).bind fun specversion =>
    ((lookupField fs "source").bind asString).bind fun source =>
    ((lookupField fs "id").bind asString).bind fun id =>
    (getOpt fs "time"
      (fun v => (asString v).bind (fun s => (rfc3339Parse s).toOption))).bind fun time =>
    (getOpt fs "subject" asString).bind fun subject =>
    (getOpt fs "dataschema" asString).bind fun dataschema =>
    (getOpt fs "datacontenttype" asString).bind fun datacontenttype =>
    (getOpt fs "data" (fun v => some (decodeData v))).bind fun data =>
    (getOpt fs "extensions" decodeExtensions).bind fun extensions =>
    some ⟨event_type, specversion, source, id, time, subject, dataschema,
      datacontenttype, data, extensions⟩
  | _ => none

/-- Serde serialization of `CloudEventV0_2` as a JSON object. -/
def CloudEventV0_2.encodeFields (e : CloudEventV0_2) : List (String × Json) :=
  [("type", Json.str e.event_type), ("specversion", Json.str e.specversion),
   ("source", Json.str e.source), ("id", Json.str e.id)]
  ++ optField "time" (e.time.map (fun t => Json.str (rfc3339Print t)))
  ++ optField "schemaurl" (e.schemaurl.map Json.str)
  ++ optField "contenttype" (e.contenttype.map Json.str)
  ++ optField "data" (e.data.map encodeData)
  ++ optField "extensions" (e.extensions.map (fun m =>
      Json.obj (m.map (fun kv => (kv.1, encodeExtensionValue kv.2)))))

/-- Serde serialization of `CloudEventV0_2` as a JSON value. -/
def CloudEventV0_2.encode (e : CloudEventV0_2) : Json := .obj e.encodeFields

/-- Serde deserialization of `CloudEventV0_2` from a JSON value. -/
def CloudEventV0_2.decode (j : Json) : Option CloudEventV0_2 :=
  match j with
  | .obj fs =>
    ((lookupField fs "type").bind asString).bind fun event_type =>
    ((lookupField fs "specversion").bind asString).bind fun specversion =>
    ((lookupField fs "source").bind asString).bind fun source =>
    ((lookupField fs "id").bind asString).bind fun id =>
    (getOpt fs "time"
      (fun v => (asString v).bind (fun s => (rfc3339Parse s).toOption))).bind fun time =>
    (getOpt fs "schemaurl" asString).bind fun schemaurl =>
    (getOpt fs "contenttype" asString).bind fun contenttype =>
    (getOpt fs "data" (fun v => some (decodeData v))).bind fun data =>
    (getOpt fs "extensions" decodeExtensions).bind fun extensions =>
    some ⟨event_type, specversion, source, id, time, schemaurl, contenttype,
      data, extensions⟩
  | _ => none

/-- Serde deserialization of the untagged `CloudEvent` wrapper
(src/cloudevents/src/event.rs): try the `V1_0` shape first, then `V0_2`;
the first variant that decodes wins. -/
def CloudEvent.decode (j : Json) : Option CloudEvent :=
  match CloudEventV1_0.decode j with
  | some e => some (CloudEvent.V1_0 e)
  | none => (CloudEventV0_2.decode j).map CloudEvent.V0_2

/-- JSON string escaping as `serde_json` renders string literals (quote,
backslash and control characters escaped; all other characters verbatim). -/
def escapeChar (c : Char) : String :=
  if c = Char.ofNat 34 then "\\\""
  else if c = Char.ofNat 92 then "\\\\"
  else if c = Char.ofNat 10 then "\\n"
  else if c = Char.ofNat 13 then "\\r"
  else if c = Char.ofNat 9 then "\\t"
  else if c.toNat < 32 then
    "\\u00" ++ String.mk [Nat.digitChar (c.toNat / 16), Nat.digitChar (c.toNat % 16)]
  else String.singleton c

/-- Escape a whole string body. -/
def escapeString (s : String) : String := String.join (s.toList.map escapeChar)

/-- Interleave a comma between rendered items. -/
def commaSep : List String → String
  | [] => ""
  | [x] => x
  | x :: xs => x ++ "," ++ commaSep xs

mutual
/-- Compact `serde_json::to_string` rendering of a JSON value. -/
def Json.render : Json → String
  | .null => "null"
  | .bool true => "true"
  | .bool false => "false"
  | .num n => toString n
  | .str s => "\"" ++ escapeString s ++ "\""
  | .arr xs => "[" ++ commaSep (Json.renderList xs) ++ "]"
  | .obj fs => "\x7b" ++ commaSep (Json.renderFields fs) ++ "\x7d"

/-- Render each array element. -/
def Json.renderList : List Json → List String
  | [] => []
  | x :: xs => Json.render x :: Json.renderList xs

/-- Render each object member as `"key":value`. -/
def Json.renderFields : List (String × Json) → List String
  | [] => []
  | (k, v) :: fs =>
    ("\"" ++ escapeString k ++ "\":" ++ Json.render v) :: Json.renderFields fs
end


/-- Payload values whose untagged JSON encoding decodes back to the same
variant: a `Data.object` holding a bare JSON string decodes as
`stringOrBinary`, and one holding JSON `null` decodes as an absent field, so
both are excluded; everything else round-trips. -/
def dataRT : Option Data → Bool
  | some (.object (.str _)) => false
  | some (.object .null) => false
  | _ => true

/-- Extension values whose untagged JSON encoding decodes back to the same
variant (an `object` holding a bare JSON string decodes as `string`). -/
def extValRT : ExtensionValue → Bool
  | .object (.str _) => false
  | _ => true

/-- All extension values in the (optional) map round-trip. -/
def extsRT : Option (List (String × ExtensionValue)) → Bool
  | none => true
  | some m => m.all (fun kv => extValRT kv.2)


/-- A sample wall-clock instant (2019-12-04T18:33:09+00:00), standing in for
`Local::now()` in concrete evaluations. -/
def sampleNow : DateTimeFO := ⟨2019, 12, 4, 18, 33, 9, 0⟩

/-- A v1.0 builder whose source is set to the malformed URL `http://` and
whose id is unset. -/
def c1Builder : CloudEventV1_0Builder :=
  ⟨some "test type", some "http://", none, none, none, none, none, none, none⟩

/-- A v1.0 builder carrying a structured data payload that is a bare JSON
string (as produced by `Data::from_serializable("test")`). -/
def c6Builder : CloudEventV1_0Builder :=
  ⟨some "test type", some "http://www.google.com", some "id", none, none, none,
    some "application/json", some (Data.object (Json.str "test")), none⟩

/-- The envelope built from `c6Builder`. -/
def c6Event : CloudEventV1_0 :=
  CloudEventV1_0.new "test type" "http://www.google.com" "id" none none none
    (some "application/json") (some (Data.object (Json.str "test"))) none

/-- What `c6Event` decodes back to: the string payload re-enters as the
`stringOrBinary` variant. -/
def c6Decoded : CloudEventV1_0 :=
  CloudEventV1_0.new "test type" "http://www.google.com" "id" none none none
    (some "application/json") (some (Data.stringOrBinary "test")) none

/-- A JSON payload in v0.2 shape (with `schemaurl`), which also satisfies the
v1.0 required fields since unknown keys are ignored. -/
def c7Json : Json :=
  Json.obj [("type", Json.str "t"), ("specversion", Json.str "0.2"),
    ("source", Json.str "/a/b"), ("id", Json.str "i"),
    ("schemaurl", Json.str "urn:x:y")]

/-- `c7Json` decoded through the v1.0 shape (schemaurl dropped). -/
def c7V1Event : CloudEventV1_0 :=
  ⟨"t", "0.2", "/a/b", "i", none, none, none, none, none, none⟩

/-- `c7Json` decoded through the v0.2 shape. -/
def c7V02Event : CloudEventV0_2 :=
  ⟨"t", "0.2", "/a/b", "i", none, some "urn:x:y", none, none, none⟩

/-- The builder of the literal documentation scenario. -/
def c8Builder : CloudEventV1_0Builder :=
  ⟨some "test type", some "http://www.google.com", some "id", none, none, none,
    some "application/json", none, none⟩

/-- The envelope of the literal documentation scenario. -/
def c8Event : CloudEventV1_0 :=
  CloudEventV1_0.new "test type" "http://www.google.com" "id" none none none
    (some "application/json") none none

/-- A v1.0 builder whose event type is set to the empty string. -/
def c9Builder : CloudEventV1_0Builder :=
  ⟨some "", some "http://www.google.com", some "id", none, none, none, none,
    none, none⟩

/-- The envelope built from `c9Builder`: its event type is the empty string. -/
def c9Event : CloudEventV1_0 :=
  CloudEventV1_0.new "" "http://www.google.com" "id" none none none none none none

/-! ### Helper lemmas: decimal digit printing and reading are inverse -/

theorem printNatAux_append (k : Nat) : ∀ (n : Nat) (acc : List Char),
    printNatAux k n acc = padNat k n ++ acc := by
  induction k with
  | zero => intro n acc; simp [printNatAux, padNat]
  | succ k ih =>
    intro n acc
    show printNatAux k (n / 10) (Nat.digitChar (n % 10) :: acc) = padNat (k + 1) n ++ acc
    rw [ih]
    have hp : padNat (k + 1) n = padNat k (n / 10) ++ [Nat.digitChar (n % 10)] := by
      show printNatAux k (n / 10) [Nat.digitChar (n % 10)] = _
      rw [ih]
    rw [hp]
    simp

theorem padNat_succ (k n : Nat) :
    padNat (k + 1) n = padNat k (n / 10) ++ [Nat.digitChar (n % 10)] := by
  show printNatAux k (n / 10) [Nat.digitChar (n % 10)] = _
  rw [printNatAux_append]

theorem digitChar_isDigit (d : Nat) (h : d < 10) : (Nat.digitChar d).isDigit = true := by
  interval_cases d <;> decide

theorem digitChar_toNat (d : Nat) (h : d < 10) : (Nat.digitChar d).toNat - 48 = d := by
  interval_cases d <;> decide

theorem padNat_length (k n : Nat) : (padNat k n).length = k := by
  induction k generalizing n with
  | zero => rfl
  | succ k ih => rw [padNat_succ]; simp [ih]

theorem padNat_digits (k : Nat) : ∀ (n : Nat), ∀ c ∈ padNat k n, c.isDigit = true := by
  induction k with
  | zero => intro n c hc; simp [padNat, printNatAux] at hc
  | succ k ih =>
    intro n c hc
    rw [padNat_succ] at hc
    rcases List.mem_append.mp hc with h | h
    · exact ih _ c h
    · rcases List.mem_singleton.mp h with rfl
      exact digitChar_isDigit _ (Nat.mod_lt n (by omega))

theorem padNat_foldl (k : Nat) : ∀ (n : Nat), n < 10 ^ k → ∀ (acc : Nat),
    (padNat k n).foldl (fun a c => a * 10 + (c.toNat - 48)) acc = acc * 10 ^ k + n := by
  induction k with
  | zero =>
    intro n hn acc
    interval_cases n
    simp [padNat, printNatAux]
  | succ k ih =>
    intro n hn acc
    rw [padNat_succ, List.foldl_append]
    have hdiv : n / 10 < 10 ^ k := by
      rw [pow_succ] at hn
      omega
    rw [ih (n / 10) hdiv acc]
    simp only [List.foldl_cons, List.foldl_nil]
    rw [digitChar_toNat (n % 10) (Nat.mod_lt n (by omega))]
    rw [pow_succ]
    have := Nat.div_add_mod n 10
    ring_nf
    omega

theorem readDigitsAux_digits (ds : List Char) :
    ∀ (acc : Nat) (rest : List Char), (∀ c ∈ ds, c.isDigit = true) →
    readDigitsAux ds.length acc (ds ++ rest) =
      some (ds.foldl (fun a c => a * 10 + (c.toNat - 48)) acc, rest) := by
  induction ds with
  | nil => intro acc rest _; simp [readDigitsAux]
  | cons c cs ih =>
    intro acc rest hds
    have hc : c.isDigit = true := hds c (by simp)
    simp only [List.length_cons, List.cons_append, readDigitsAux, hc, if_true,
      List.foldl_cons]
    exact ih _ rest (fun d hd => hds d (by simp [hd]))

theorem readDigits_padNat (k n : Nat) (h : n < 10 ^ k) (rest : List Char) :
    readDigits k (padNat k n ++ rest) = some (n, rest) := by
  have H := readDigitsAux_digits (padNat k n) 0 rest (padNat_digits k n)
  rw [padNat_length] at H
  rw [readDigits, H, padNat_foldl k n h 0]
  simp

theorem parseOffsetMag_print (a b : Nat) (ha : a ≤ 23) (hb : b ≤ 59) :
    parseOffsetMag (padNat 2 a ++ ':' :: padNat 2 b) = some (a * 60 + b) := by
  have ra := readDigits_padNat 2 a (by omega) (':' :: padNat 2 b)
  have rb : readDigits 2 (padNat 2 b) = some (b, []) := by
    simpa using readDigits_padNat 2 b (by omega) []
  simp [parseOffsetMag, ra, rb, expectChar, ha, hb]

theorem parseOffset_print (off : Int) (h : off.natAbs ≤ 23 * 60 + 59) :
    parseOffset ((if 0 ≤ off then '+' else '-') ::
      (padNat 2 (off.natAbs / 60) ++ ':' :: padNat 2 (off.natAbs % 60))) = some off := by
  have hm := parseOffsetMag_print (off.natAbs / 60) (off.natAbs % 60)
    (by omega) (by omega)
  rcases le_or_lt 0 off with hpos | hneg
  · rw [if_pos hpos]
    simp [parseOffset, hm]
    rw [abs_of_nonneg hpos]
    omega
  · rw [if_neg (not_le.mpr hneg)]
    simp [parseOffset, hm]
    rw [abs_of_neg hneg]
    omega

theorem rfc3339ParseCore_print (d : DateTimeFO) (hv : d.valid = true) :
    rfc3339ParseCore (rfc3339PrintList d) = some d := by
  simp only [DateTimeFO.valid, Bool.and_eq_true, decide_eq_true_eq] at hv
  obtain ⟨⟨⟨⟨⟨⟨⟨⟨hy, hmo1⟩, hmo2⟩, hd1⟩, hd2⟩, hh⟩, hmi⟩, hs⟩, hoff⟩ := hv
  have ry : ∀ r, readDigits 4 (padNat 4 d.year ++ r) = some (d.year, r) :=
    fun r => readDigits_padNat _ _ (by omega) r
  have rmo : ∀ r, readDigits 2 (padNat 2 d.month ++ r) = some (d.month, r) :=
    fun r => readDigits_padNat _ _ (by omega) r
  have rd : ∀ r, readDigits 2 (padNat 2 d.day ++ r) = some (d.day, r) :=
    fun r => readDigits_padNat _ _ (by omega) r
  have rh : ∀ r, readDigits 2 (padNat 2 d.hour ++ r) = some (d.hour, r) :=
    fun r => readDigits_padNat _ _ (by omega) r
  have rmi : ∀ r, readDigits 2 (padNat 2 d.minute ++ r) = some (d.minute, r) :=
    fun r => readDigits_padNat _ _ (by omega) r
  have rs : ∀ r, readDigits 2 (padNat 2 d.second ++ r) = some (d.second, r) :=
    fun r => readDigits_padNat _ _ (by omega) r
  have roff := parseOffset_print d.offMin hoff
  simp only [rfc3339PrintList, rfc3339ParseCore, List.cons_append, List.append_assoc,
    ry, rmo, rd, rh, rmi, rs, roff, expectChar, Option.some_bind, beq_self_eq_true,
    if_true, Prod.fst, Prod.snd]
  simp [hy, hmo1, hmo2, hd1, hd2, hh, hmi, hs]

theorem parseOffsetMag_le (cs : List Char) (n : Nat) (h : parseOffsetMag cs = some n) :
    n ≤ 23 * 60 + 59 := by
  simp only [parseOffsetMag, Option.bind_eq_some] at h
  obtain ⟨p1, hp1, cs2, hcs2, p2, hp2, h⟩ := h
  split at h
  · rename_i hcond
    simp only [Bool.and_eq_true, decide_eq_true_eq] at hcond
    obtain ⟨⟨h1, h2⟩, _⟩ := hcond
    injection h with h3
    omega
  · exact absurd h (by simp)

theorem parseOffset_natAbs_le (cs : List Char) (off : Int)
    (h : parseOffset cs = some off) : off.natAbs ≤ 23 * 60 + 59 := by
  cases cs with
  | nil => simp [parseOffset] at h
  | cons c rest =>
    simp only [parseOffset] at h
    split at h
    · split at h
      · injection h with h2
        omega
      · exact absurd h (by simp)
    · split at h
      · split at h
        · rename_i n hn
          injection h with h2
          have := parseOffsetMag_le rest n hn
          omega
        · exact absurd h (by simp)
      · split at h
        · split at h
          · rename_i n hn
            injection h with h2
            have := parseOffsetMag_le rest n hn
            omega
          · exact absurd h (by simp)
        · exact absurd h (by simp)

theorem rfc3339ParseCore_valid (cs : List Char) (d : DateTimeFO)
    (h : rfc3339ParseCore cs = some d) : d.valid = true := by
  simp only [rfc3339ParseCore, Option.bind_eq_some] at h
  obtain ⟨y, hy, cs1, h1, mo, hmo, cs2, h2, dd, hdd, cs3, h3, hr, hhr, cs4, h4,
    mi, hmi, cs5, h5, sec, hsec, off, hoff, h⟩ := h
  split at h
  · rename_i hcond
    injection h with h6
    subst h6
    simp only [Bool.and_eq_true, decide_eq_true_eq] at hcond
    obtain ⟨⟨⟨⟨⟨⟨⟨hA, hB⟩, hC⟩, hD⟩, hE⟩, hF⟩, hG⟩, hH⟩ := hcond
    have hb := parseOffset_natAbs_le _ _ hoff
    simp only [DateTimeFO.valid, Bool.and_eq_true, decide_eq_true_eq]
    omega
  · exact absurd h (by simp)

theorem rfc3339Parse_print (d : DateTimeFO) (hv : d.valid = true) :
    rfc3339Parse (rfc3339Print d) = .ok d := by
  have hl : (rfc3339Print d).toList = rfc3339PrintList d := rfl
  rw [rfc3339Parse, hl, rfc3339ParseCore_print d hv]

theorem rfc3339Parse_valid (s : String) (d : DateTimeFO)
    (h : rfc3339Parse s = .ok d) : d.valid = true := by
  rw [rfc3339Parse] at h
  cases hc : rfc3339ParseCore s.toList with
  | none => rw [hc] at h; exact absurd h (by simp)
  | some dt =>
    rw [hc] at h
    injection h with h2
    subst h2
    exact rfc3339ParseCore_valid _ _ hc

/-! ### Helper lemmas: builder validation -/

theorem validateUri_ok_eq (s t : String) (h : validateUri s = .ok t) : t = s := by
  unfold validateUri at h
  split at h
  · injection h with h2; exact h2.symm
  · injection h with h2; exact h2.symm
  · exact absurd h (by simp)

theorem validateUriOpt_ok_eq (o t : Option String) (h : validateUriOpt o = .ok t) :
    t = o := by
  cases o with
  | none => injection h with h2; exact h2.symm
  | some s =>
    simp only [validateUriOpt] at h
    cases hv : validateUri s with
    | ok u =>
      rw [hv] at h
      simp only [Except.map] at h
      injection h with h2
      rw [← h2, validateUri_ok_eq s u hv]
    | error e => rw [hv] at h; exact absurd h (by simp [Except.map])

theorem buildV1_eq_ok (now : DateTimeFO) (b : CloudEventV1_0Builder)
    (et src id : String) (τo : Option DateTimeFO) (dso : Option String)
    (h1 : b.event_type = some et) (h2 : b.source = some src) (h3 : b.id = some id)
    (h4 : validateUri src = .ok src) (h5 : resolveTimeV1 now b.time = .ok τo)
    (h6 : validateUriOpt b.dataschema = .ok dso) :
    b.build now = .ok (CloudEventV1_0.new et src id τo b.subject dso
      b.datacontenttype b.data b.extensions) := by
  simp only [CloudEventV1_0Builder.build, h1, h2, h3, h4, h5, h6]

theorem buildV0_2_eq_ok (b : CloudEventV0_2Builder)
    (et src id : String) (τo : Option DateTimeFO) (suo : Option String)
    (h1 : b.event_type = some et) (h2 : b.source = some src) (h3 : b.id = some id)
    (h4 : validateUri src = .ok src) (h5 : resolveTimeV0_2 b.time = .ok τo)
    (h6 : validateUriOpt b.schemaurl = .ok suo) :
    b.build = .ok (CloudEventV0_2.new et src id τo suo
      b.contenttype b.data b.extensions) := by
  simp only [CloudEventV0_2Builder.build, h1, h2, h3, h4, h5, h6]

theorem buildV1_ok_inv (now : DateTimeFO) (b : CloudEventV1_0Builder)
    (e : CloudEventV1_0) (h : b.build now = .ok e) :
    b.event_type = some e.event_type ∧ b.source = some e.source ∧ b.id = some e.id ∧
    e.specversion = "1.0" ∧ validateUri e.source = .ok e.source ∧
    resolveTimeV1 now b.time = .ok e.time ∧ e.dataschema = b.dataschema ∧
    validateUriOpt b.dataschema = .ok e.dataschema ∧
    e.subject = b.subject ∧ e.datacontenttype = b.datacontenttype ∧
    e.data = b.data ∧ e.extensions = b.extensions := by
  cases het : b.event_type with
  | none => simp only [CloudEventV1_0Builder.build, het] at h; exact absurd h (by simp)
  | some et =>
  cases hsrc : b.source with
  | none => simp only [CloudEventV1_0Builder.build, het, hsrc] at h; exact absurd h (by simp)
  | some src =>
  cases hval : validateUri src with
  | error m => simp only [CloudEventV1_0Builder.build, het, hsrc, hval] at h; exact absurd h (by simp)
  | ok src2 =>
  have hsrceq : src2 = src := validateUri_ok_eq _ _ hval
  subst hsrceq
  cases hid : b.id with
  | none => simp only [CloudEventV1_0Builder.build, het, hsrc, hval, hid] at h; exact absurd h (by simp)
  | some id =>
  cases htime : resolveTimeV1 now b.time with
  | error m => simp only [CloudEventV1_0Builder.build, het, hsrc, hval, hid, htime] at h; exact absurd h (by simp)
  | ok τo =>
  cases hds : validateUriOpt b.dataschema with
  | error m =>
    simp only [CloudEventV1_0Builder.build, het, hsrc, hval, hid, htime, hds] at h
    exact absurd h (by simp)
  | ok dso =>
  have hdseq : dso = b.dataschema := validateUriOpt_ok_eq _ _ hds
  simp only [CloudEventV1_0Builder.build, het, hsrc, hval, hid, htime, hds] at h
  injection h with h2
  subst h2
  exact ⟨rfl, rfl, rfl, rfl, hval, rfl, hdseq, rfl, rfl, rfl, rfl, rfl⟩

theorem buildV0_2_ok_inv (b : CloudEventV0_2Builder)
    (e : CloudEventV0_2) (h : b.build = .ok e) :
    b.event_type = some e.event_type ∧ b.source = some e.source ∧ b.id = some e.id ∧
    e.specversion = "0.2" ∧ validateUri e.source = .ok e.source ∧
    resolveTimeV0_2 b.time = .ok e.time ∧ e.schemaurl = b.schemaurl ∧
    validateUriOpt b.schemaurl = .ok e.schemaurl ∧
    e.contenttype = b.contenttype ∧ e.data = b.data ∧ e.extensions = b.extensions := by
  cases het : b.event_type with
  | none => simp only [CloudEventV0_2Builder.build, het] at h; exact absurd h (by simp)
  | some et =>
  cases hsrc : b.source with
  | none => simp only [CloudEventV0_2Builder.build, het, hsrc] at h; exact absurd h (by simp)
  | some src =>
  cases hval : validateUri src with
  | error m => simp only [CloudEventV0_2Builder.build, het, hsrc, hval] at h; exact absurd h (by simp)
  | ok src2 =>
  have hsrceq : src2 = src := validateUri_ok_eq _ _ hval
  subst hsrceq
  cases hid : b.id with
  | none => simp only [CloudEventV0_2Builder.build, het, hsrc, hval, hid] at h; exact absurd h (by simp)
  | some id =>
  cases htime : resolveTimeV0_2 b.time with
  | error m => simp only [CloudEventV0_2Builder.build, het, hsrc, hval, hid, htime] at h; exact absurd h (by simp)
  | ok τo =>
  cases hsu : validateUriOpt b.schemaurl with
  | error m =>
    simp only [CloudEventV0_2Builder.build, het, hsrc, hval, hid, htime, hsu] at h
    exact absurd h (by simp)
  | ok suo =>
  have hsueq : suo = b.schemaurl := validateUriOpt_ok_eq _ _ hsu
  simp only [CloudEventV0_2Builder.build, het, hsrc, hval, hid, htime, hsu] at h
  injection h with h2
  subst h2
  exact ⟨rfl, rfl, rfl, rfl, hval, rfl, hsueq, rfl, rfl, rfl, rfl⟩

theorem resolveTimeV1_valid (now : DateTimeFO) (t : Option String)
    (τo : Option DateTimeFO) (hn : now.valid = true)
    (h : resolveTimeV1 now t = .ok τo) :
    τo = none ∨ ∃ τ, τo = some τ ∧ τ.valid = true := by
  cases t with
  | none => injection h with h2; exact Or.inl h2.symm
  | some s =>
    simp only [resolveTimeV1] at h
    split at h
    · injection h with h2
      exact Or.inr ⟨now, h2.symm, hn⟩
    · cases hp : rfc3339Parse s with
      | ok τ =>
        rw [hp] at h
        simp only [Except.map] at h
        injection h with h2
        exact Or.inr ⟨τ, h2.symm, rfc3339Parse_valid _ _ hp⟩
      | error m => rw [hp] at h; exact absurd h (by simp [Except.map])

theorem resolveTimeV0_2_valid (t : Option String) (τo : Option DateTimeFO)
    (h : resolveTimeV0_2 t = .ok τo) :
    τo = none ∨ ∃ τ, τo = some τ ∧ τ.valid = true := by
  cases t with
  | none => injection h with h2; exact Or.inl h2.symm
  | some s =>
    simp only [resolveTimeV0_2] at h
    cases hp : rfc3339Parse s with
    | ok τ =>
      rw [hp] at h
      simp only [Except.map] at h
      injection h with h2
      exact Or.inr ⟨τ, h2.symm, rfc3339Parse_valid _ _ hp⟩
    | error m => rw [hp] at h; exact absurd h (by simp [Except.map])

/-! ### Helper lemmas: JSON field lookup in the encoded object -/

theorem lookupField_optField_ne (k k2 : String) (h : k2 ≠ k) (v : Option Json)
    (rest : List (String × Json)) :
    lookupField (optField k2 v ++ rest) k = lookupField rest k := by
  cases v with
  | none => rfl
  | some j => simp [optField, lookupField, h]

theorem lookupField_optField_self (k : String) (v : Option Json)
    (rest : List (String × Json)) (h : lookupField rest k = none) :
    lookupField (optField k v ++ rest) k = v := by
  cases v with
  | none => exact h
  | some j => simp [optField, lookupField]

theorem lookupField_nil (k : String) : lookupField [] k = none := rfl

theorem lookupField_optField_ne_nil (k k2 : String) (h : k2 ≠ k) (v : Option Json) :
    lookupField (optField k2 v) k = none := by
  cases v with
  | none => rfl
  | some j => simp [optField, lookupField, h]

theorem lookupField_optField_self_nil (k : String) (v : Option Json) :
    lookupField (optField k v) k = v := by
  cases v with
  | none => rfl
  | some j => simp [optField, lookupField]

theorem encV1_lookup_event_type (e : CloudEventV1_0) :
    lookupField e.encodeFields "type" = some (Json.str e.event_type) := by
  simp [CloudEventV1_0.encodeFields, lookupField, lookupField_optField_ne,
    lookupField_optField_self, lookupField_optField_ne_nil, lookupField_optField_self_nil]

theorem encV1_lookup_specversion (e : CloudEventV1_0) :
    lookupField e.encodeFields "specversion" = some (Json.str e.specversion) := by
  simp [CloudEventV1_0.encodeFields, lookupField, lookupField_optField_ne,
    lookupField_optField_self, lookupField_optField_ne_nil, lookupField_optField_self_nil]

theorem encV1_lookup_source (e : CloudEventV1_0) :
    lookupField e.encodeFields "source" = some (Json.str e.source) := by
  simp [CloudEventV1_0.encodeFields, lookupField, lookupField_optField_ne,
    lookupField_optField_self, lookupField_optField_ne_nil, lookupField_optField_self_nil]

theorem encV1_lookup_id (e : CloudEventV1_0) :
    lookupField e.encodeFields "id" = some (Json.str e.id) := by
  simp [CloudEventV1_0.encodeFields, lookupField, lookupField_optField_ne,
    lookupField_optField_self, lookupField_optField_ne_nil, lookupField_optField_self_nil]

theorem encV1_lookup_time (e : CloudEventV1_0) :
    lookupField e.encodeFields "time" = e.time.map (fun t => Json.str (rfc3339Print t)) := by
  simp [CloudEventV1_0.encodeFields, lookupField, lookupField_optField_ne,
    lookupField_optField_self, lookupField_optField_ne_nil, lookupField_optField_self_nil]

theorem encV1_lookup_subject (e : CloudEventV1_0) :
    lookupField e.encodeFields "subject" = e.subject.map Json.str := by
  simp [CloudEventV1_0.encodeFields, lookupField, lookupField_optField_ne,
    lookupField_optField_self, lookupField_optField_ne_nil, lookupField_optField_self_nil]

theorem encV1_lookup_dataschema (e : CloudEventV1_0) :
    lookupField e.encodeFields "dataschema" = e.dataschema.map Json.str := by
  simp [CloudEventV1_0.encodeFields, lookupField, lookupField_optField_ne,
    lookupField_optField_self, lookupField_optField_ne_nil, lookupField_optField_self_nil]

theorem encV1_lookup_datacontenttype (e : CloudEventV1_0) :
    lookupField e.encodeFields "datacontenttype" = e.datacontenttype.map Json.str := by
  simp [CloudEventV1_0.encodeFields, lookupField, lookupField_optField_ne,
    lookupField_optField_self, lookupField_optField_ne_nil, lookupField_optField_self_nil]

theorem encV1_lookup_data (e : CloudEventV1_0) :
    lookupField e.encodeFields "data" = e.data.map encodeData := by
  simp [CloudEventV1_0.encodeFields, lookupField, lookupField_optField_ne,
    lookupField_optField_self, lookupField_optField_ne_nil, lookupField_optField_self_nil]

theorem encV1_lookup_extensions (e : CloudEventV1_0) :
    lookupField e.encodeFields "extensions" = e.extensions.map (fun m =>
      Json.obj (m.map (fun kv => (kv.1, encodeExtensionValue kv.2)))) := by
  simp [CloudEventV1_0.encodeFields, lookupField, lookupField_optField_ne,
    lookupField_optField_self, lookupField_optField_ne_nil, lookupField_optField_self_nil]

theorem encV02_lookup_event_type (e : CloudEventV0_2) :
    lookupField e.encodeFields "type" = some (Json.str e.event_type) := by
  simp [CloudEventV0_2.encodeFields, lookupField, lookupField_optField_ne,
    lookupField_optField_self, lookupField_optField_ne_nil, lookupField_optField_self_nil]

theorem encV02_lookup_specversion (e : CloudEventV0_2) :
    lookupField e.encodeFields "specversion" = some (Json.str e.specversion) := by
  simp [CloudEventV0_2.encodeFields, lookupField, lookupField_optField_ne,
    lookupField_optField_self, lookupField_optField_ne_nil, lookupField_optField_self_nil]

theorem encV02_lookup_source (e : CloudEventV0_2) :
    lookupField e.encodeFields "source" = some (Json.str e.source) := by
  simp [CloudEventV0_2.encodeFields, lookupField, lookupField_optField_ne,
    lookupField_optField_self, lookupField_optField_ne_nil, lookupField_optField_self_nil]

theorem encV02_lookup_id (e : CloudEventV0_2) :
    lookupField e.encodeFields "id" = some (Json.str e.id) := by
  simp [CloudEventV0_2.encodeFields, lookupField, lookupField_optField_ne,
    lookupField_optField_self, lookupField_optField_ne_nil, lookupField_optField_self_nil]

theorem encV02_lookup_time (e : CloudEventV0_2) :
    lookupField e.encodeFields "time" = e.time.map (fun t => Json.str (rfc3339Print t)) := by
  simp [CloudEventV0_2.encodeFields, lookupField, lookupField_optField_ne,
    lookupField_optField_self, lookupField_optField_ne_nil, lookupField_optField_self_nil]

theorem encV02_lookup_schemaurl (e : CloudEventV0_2) :
    lookupField e.encodeFields "schemaurl" = e.schemaurl.map Json.str := by
  simp [CloudEventV0_2.encodeFields, lookupField, lookupField_optField_ne,
    lookupField_optField_self, lookupField_optField_ne_nil, lookupField_optField_self_nil]

theorem encV02_lookup_contenttype (e : CloudEventV0_2) :
    lookupField e.encodeFields "contenttype" = e.contenttype.map Json.str := by
  simp [CloudEventV0_2.encodeFields, lookupField, lookupField_optField_ne,
    lookupField_optField_self, lookupField_optField_ne_nil, lookupField_optField_self_nil]

theorem encV02_lookup_data (e : CloudEventV0_2) :
    lookupField e.encodeFields "data" = e.data.map encodeData := by
  simp [CloudEventV0_2.encodeFields, lookupField, lookupField_optField_ne,
    lookupField_optField_self, lookupField_optField_ne_nil, lookupField_optField_self_nil]

theorem encV02_lookup_extensions (e : CloudEventV0_2) :
    lookupField e.encodeFields "extensions" = e.extensions.map (fun m =>
      Json.obj (m.map (fun kv => (kv.1, encodeExtensionValue kv.2)))) := by
  simp [CloudEventV0_2.encodeFields, lookupField, lookupField_optField_ne,
    lookupField_optField_self, lookupField_optField_ne_nil, lookupField_optField_self_nil]

theorem getOpt_strOpt (fs : List (String × Json)) (k : String) (o : Option String)
    (h : lookupField fs k = o.map Json.str) : getOpt fs k asString = some o := by
  cases o with
  | none => simp [getOpt, h]
  | some s => simp [getOpt, h, asString]

theorem getOpt_time (fs : List (String × Json)) (k : String) (o : Option DateTimeFO)
    (ho : o = none ∨ ∃ τ, o = some τ ∧ τ.valid = true)
    (h : lookupField fs k = o.map (fun t => Json.str (rfc3339Print t))) :
    getOpt fs k (fun v => (asString v).bind (fun s => (rfc3339Parse s).toOption)) =
      some o := by
  rcases ho with rfl | ⟨τ, rfl, hv⟩
  · simp [getOpt, h]
  · simp [getOpt, h, asString, rfc3339Parse_print τ hv, Except.toOption]

theorem decodeData_encodeData (d : Data) (hd : dataRT (some d) = true) :
    decodeData (encodeData d) = d ∧ encodeData d ≠ Json.null := by
  cases d with
  | stringOrBinary s => exact ⟨rfl, by simp [encodeData]⟩
  | object v =>
    cases v with
    | str s => simp [dataRT] at hd
    | null => simp [dataRT] at hd
    | bool b => exact ⟨rfl, by simp [encodeData]⟩
    | num n => exact ⟨rfl, by simp [encodeData]⟩
    | arr xs => exact ⟨rfl, by simp [encodeData]⟩
    | obj fs => exact ⟨rfl, by simp [encodeData]⟩

theorem getOpt_data (fs : List (String × Json)) (k : String) (o : Option Data)
    (hd : dataRT o = true) (h : lookupField fs k = o.map encodeData) :
    getOpt fs k (fun v => some (decodeData v)) = some o := by
  cases o with
  | none => simp [getOpt, h]
  | some d =>
    obtain ⟨hdec, hnn⟩ := decodeData_encodeData d hd
    simp only [Option.map_some'] at h
    unfold getOpt
    rw [h]
    cases he : encodeData d with
    | null => exact absurd he hnn
    | bool b => rw [he] at hdec; simp [hdec]
    | num n => rw [he] at hdec; simp [hdec]
    | str s => rw [he] at hdec; simp [hdec]
    | arr xs => rw [he] at hdec; simp [hdec]
    | obj gs => rw [he] at hdec; simp [hdec]

theorem decodeExtensionValue_encode (v : ExtensionValue) (h : extValRT v = true) :
    decodeExtensionValue (encodeExtensionValue v) = v := by
  cases v with
  | string s => rfl
  | object j =>
    cases j with
    | str s => simp [extValRT] at h
    | null => rfl
    | bool b => rfl
    | num n => rfl
    | arr xs => rfl
    | obj fs => rfl

theorem extMap_roundtrip (m : List (String × ExtensionValue))
    (h : m.all (fun kv => extValRT kv.2) = true) :
    (m.map (fun kv => (kv.1, encodeExtensionValue kv.2))).map
      (fun kv => (kv.1, decodeExtensionValue kv.2)) = m := by
  induction m with
  | nil => rfl
  | cons kv rest ih =>
    simp only [List.all_cons, Bool.and_eq_true] at h
    simp only [List.map_cons, decodeExtensionValue_encode kv.2 h.1]
    rw [ih h.2]

theorem getOpt_exts (fs : List (String × Json)) (k : String)
    (o : Option (List (String × ExtensionValue))) (he : extsRT o = true)
    (h : lookupField fs k = o.map (fun m =>
      Json.obj (m.map (fun kv => (kv.1, encodeExtensionValue kv.2))))) :
    getOpt fs k decodeExtensions = some o := by
  cases o with
  | none => simp [getOpt, h]
  | some m =>
    simp only [extsRT] at he
    simp [getOpt, h, decodeExtensions, extMap_roundtrip m he]

theorem asString_str (s : String) : asString (Json.str s) = some s := rfl

theorem decodeV1_encodeV1 (e : CloudEventV1_0)
    (ht : e.time = none ∨ ∃ τ, e.time = some τ ∧ τ.valid = true)
    (hd : dataRT e.data = true) (he : extsRT e.extensions = true) :
    CloudEventV1_0.decode (CloudEventV1_0.encode e) = some e := by
  have l1 := encV1_lookup_event_type e
  have l2 := encV1_lookup_specversion e
  have l3 := encV1_lookup_source e
  have l4 := encV1_lookup_id e
  have g1 := getOpt_time e.encodeFields "time" e.time ht (encV1_lookup_time e)
  have g2 := getOpt_strOpt e.encodeFields "subject" e.subject (encV1_lookup_subject e)
  have g3 := getOpt_strOpt e.encodeFields "dataschema" e.dataschema
    (encV1_lookup_dataschema e)
  have g4 := getOpt_strOpt e.encodeFields "datacontenttype" e.datacontenttype
    (encV1_lookup_datacontenttype e)
  have g5 := getOpt_data e.encodeFields "data" e.data hd (encV1_lookup_data e)
  have g6 := getOpt_exts e.encodeFields "extensions" e.extensions he
    (encV1_lookup_extensions e)
  simp only [CloudEventV1_0.encode, CloudEventV1_0.decode, l1, l2, l3, l4,
    g1, g2, g3, g4, g5, g6, asString_str, Option.some_bind]

theorem decodeV0_2_encodeV0_2 (e : CloudEventV0_2)
    (ht : e.time = none ∨ ∃ τ, e.time = some τ ∧ τ.valid = true)
    (hd : dataRT e.data = true) (he : extsRT e.extensions = true) :
    CloudEventV0_2.decode (CloudEventV0_2.encode e) = some e := by
  have l1 := encV02_lookup_event_type e
  have l2 := encV02_lookup_specversion e
  have l3 := encV02_lookup_source e
  have l4 := encV02_lookup_id e
  have g1 := getOpt_time e.encodeFields "time" e.time ht (encV02_lookup_time e)
  have g2 := getOpt_strOpt e.encodeFields "schemaurl" e.schemaurl
    (encV02_lookup_schemaurl e)
  have g3 := getOpt_strOpt e.encodeFields "contenttype" e.contenttype
    (encV02_lookup_contenttype e)
  have g4 := getOpt_data e.encodeFields "data" e.data hd (encV02_lookup_data e)
  have g5 := getOpt_exts e.encodeFields "extensions" e.extensions he
    (encV02_lookup_extensions e)
  simp only [CloudEventV0_2.encode, CloudEventV0_2.decode, l1, l2, l3, l4,
    g1, g2, g3, g4, g5, asString_str, Option.some_bind]

/-! ### Claim theorems -/

/-- C1 counterexample: a builder with event type set, source set to the
malformed URL `http://`, and id unset.  At least one required field (id) is
unset, yet `build()` fails with the source URI parse error ("empty host"),
not with any missing-field error: the source URI validation sits between the
source-presence check and the id-presence check and preempts it. -/
theorem claim1_counterexample :
    CloudEventV1_0Builder.build sampleNow c1Builder = .error "empty host" ∧
    "empty host" ∉ ["Event type is required", "Source is required",
      "Event id is required"] := by
  exact ⟨rfl, by decide⟩

/-- C1 (amended): for both builders, `build()` on a builder with a missing
required field fails with the missing-field error of the first missing field
in the order event type, source, id — provided that, when source is set, it
passes the URI check (an invalid set source otherwise preempts the id
check).  No later validation (time, schema) runs: the time and schema slots
are arbitrary in every part. -/
theorem claim1_missing_field_order :
    (∀ (now : DateTimeFO) (b : CloudEventV1_0Builder), b.event_type = none →
      b.build now = .error "Event type is required") ∧
    (∀ (now : DateTimeFO) (b : CloudEventV1_0Builder) (et : String),
      b.event_type = some et → b.source = none →
      b.build now = .error "Source is required") ∧
    (∀ (now : DateTimeFO) (b : CloudEventV1_0Builder) (et src : String),
      b.event_type = some et → b.source = some src → validateUri src = .ok src →
      b.id = none → b.build now = .error "Event id is required") ∧
    (∀ (b : CloudEventV0_2Builder), b.event_type = none →
      b.build = .error "Event type is required") ∧
    (∀ (b : CloudEventV0_2Builder) (et : String),
      b.event_type = some et → b.source = none →
      b.build = .error "Source is required") ∧
    (∀ (b : CloudEventV0_2Builder) (et src : String),
      b.event_type = some et → b.source = some src → validateUri src = .ok src →
      b.id = none → b.build = .error "Event id is required") := by
  refine ⟨?_, ?_, ?_, ?_, ?_, ?_⟩
  · intro now b h1
    simp [CloudEventV1_0Builder.build, h1]
  · intro now b et h1 h2
    simp [CloudEventV1_0Builder.build, h1, h2]
  · intro now b et src h1 h2 h3 h4
    simp [CloudEventV1_0Builder.build, h1, h2, h3, h4]
  · intro b h1
    simp [CloudEventV0_2Builder.build, h1]
  · intro b et h1 h2
    simp [CloudEventV0_2Builder.build, h1, h2]
  · intro b et src h1 h2 h3 h4
    simp [CloudEventV0_2Builder.build, h1, h2, h3, h4]

/-- C1 witness: the amended order at concrete builders; the unset-id case
carries an invalid time string, showing the id error still wins (no later
validation is reached). -/
theorem claim1_missing_field_order_witness :
    CloudEventV1_0Builder.build sampleNow
      ⟨none, some "http://", none, some "not-a-date", none, none, none, none, none⟩
      = .error "Event type is required" ∧
    CloudEventV1_0Builder.build sampleNow
      ⟨some "t", none, none, some "not-a-date", none, none, none, none, none⟩
      = .error "Source is required" ∧
    CloudEventV1_0Builder.build sampleNow
      ⟨some "t", some "/a/b", none, some "not-a-date", none, none, none, none, none⟩
      = .error "Event id is required" ∧
    CloudEventV0_2Builder.build
      ⟨none, none, none, some "not-a-date", none, none, none, none⟩
      = .error "Event type is required" ∧
    CloudEventV0_2Builder.build
      ⟨some "t", none, none, some "not-a-date", none, none, none, none⟩
      = .error "Source is required" ∧
    CloudEventV0_2Builder.build
      ⟨some "t", some "/a/b", none, some "not-a-date", none, none, none, none⟩
      = .error "Event id is required" := by
  exact ⟨claim1_missing_field_order.1 sampleNow _ rfl,
    claim1_missing_field_order.2.1 sampleNow _ "t" rfl rfl,
    claim1_missing_field_order.2.2.1 sampleNow _ "t" "/a/b" rfl rfl rfl rfl,
    claim1_missing_field_order.2.2.2.1 _ rfl,
    claim1_missing_field_order.2.2.2.2.1 _ "t" rfl rfl,
    claim1_missing_field_order.2.2.2.2.2 _ "t" "/a/b" rfl rfl rfl rfl⟩

/-- C9 counterexample: a builder whose event type is set to the empty string
builds successfully (the claim asserts it fails).  The check is
`Option::ok_or`: pure presence, with no content requirement. -/
theorem claim9_counterexample :
    CloudEventV1_0Builder.build sampleNow c9Builder = .ok c9Event ∧
    c9Event.event_type = "" := ⟨rfl, rfl⟩

/-- C9 (amended): the event type is validated as presence only, in both
builders: `build()` fails with the missing-field error exactly when the
field is unset; any set string — the empty string included — is accepted and
stored unchanged. -/
theorem claim9_event_type_presence :
    (∀ (now : DateTimeFO) (b : CloudEventV1_0Builder), b.event_type = none →
      b.build now = .error "Event type is required") ∧
    (∀ (now : DateTimeFO) (b : CloudEventV1_0Builder) (s : String)
       (e : CloudEventV1_0), b.event_type = some s → b.build now = .ok e →
      e.event_type = s) ∧
    (∀ (now : DateTimeFO) (b : CloudEventV1_0Builder) (s src id : String)
       (τo : Option DateTimeFO), b.event_type = some s → b.source = some src →
      b.id = some id → validateUri src = .ok src →
      resolveTimeV1 now b.time = .ok τo →
      validateUriOpt b.dataschema = .ok b.dataschema →
      (b.build now).isOk = true) ∧
    (∀ (b : CloudEventV0_2Builder), b.event_type = none →
      b.build = .error "Event type is required") ∧
    (∀ (b : CloudEventV0_2Builder) (s : String) (e : CloudEventV0_2),
      b.event_type = some s → b.build = .ok e → e.event_type = s) ∧
    (∀ (b : CloudEventV0_2Builder) (s src id : String) (τo : Option DateTimeFO),
      b.event_type = some s → b.source = some src → b.id = some id →
      validateUri src = .ok src → resolveTimeV0_2 b.time = .ok τo →
      validateUriOpt b.schemaurl = .ok b.schemaurl →
      b.build.isOk = true) := by
  refine ⟨?_, ?_, ?_, ?_, ?_, ?_⟩
  · intro now b h1
    simp [CloudEventV1_0Builder.build, h1]
  · intro now b s e h1 h2
    have hinv := (buildV1_ok_inv now b e h2).1
    rw [h1] at hinv
    injection hinv with h3
    exact h3.symm
  · intro now b s src id τo h1 h2 h3 h4 h5 h6
    rw [buildV1_eq_ok now b s src id τo b.dataschema h1 h2 h3 h4 h5 h6]
    rfl
  · intro b h1
    simp [CloudEventV0_2Builder.build, h1]
  · intro b s e h1 h2
    have hinv := (buildV0_2_ok_inv b e h2).1
    rw [h1] at hinv
    injection hinv with h3
    exact h3.symm
  · intro b s src id τo h1 h2 h3 h4 h5 h6
    rw [buildV0_2_eq_ok b s src id τo b.schemaurl h1 h2 h3 h4 h5 h6]
    rfl

/-- C9 witness: presence-only at concrete inputs — unset event type fails,
a nonempty event type (and, per the counterexample, even the empty one)
builds. -/
theorem claim9_event_type_presence_witness :
    CloudEventV1_0Builder.build sampleNow
      ⟨none, some "/a", some "i", none, none, none, none, none, none⟩
      = .error "Event type is required" ∧
    (CloudEventV1_0Builder.build sampleNow
      ⟨some "t", some "/a", some "i", none, none, none, none, none, none⟩).isOk
      = true ∧
    CloudEventV0_2Builder.build
      ⟨none, some "/a", some "i", none, none, none, none, none⟩
      = .error "Event type is required" ∧
    (CloudEventV0_2Builder.build
      ⟨some "t", some "/a", some "i", none, none, none, none, none⟩).isOk
      = true := by
  exact ⟨claim9_event_type_presence.1 sampleNow _ rfl,
    claim9_event_type_presence.2.2.1 sampleNow _ "t" "/a" "i" none rfl rfl rfl
      rfl rfl rfl,
    claim9_event_type_presence.2.2.2.1 _ rfl,
    claim9_event_type_presence.2.2.2.2.2 _ "t" "/a" "i" none rfl rfl rfl rfl
      rfl rfl⟩

/-- C2: identity law.  For a builder of either version with the required fields set,
a source passing the URI check, a time (if set) valid per the version's time
rule, and a schema reference (if set) passing the URI check, `build()`
succeeds and every accessor of the resulting envelope returns exactly the
value set on the builder — the validated time being returned as its resolved
timestamp `τo`, and every unset optional field as `none`. -/
theorem claim2_build_identity :
    (∀ (now : DateTimeFO) (b : CloudEventV1_0Builder) (et src id : String)
       (τo : Option DateTimeFO),
      b.event_type = some et → b.source = some src → b.id = some id →
      validateUri src = .ok src → resolveTimeV1 now b.time = .ok τo →
      validateUriOpt b.dataschema = .ok b.dataschema →
      (b.build now).isOk = true ∧
      (b.build now).map (fun e => e.event_type) = .ok et ∧
      (b.build now).map (fun e => e.source) = .ok src ∧
      (b.build now).map (fun e => e.event_id) = .ok id ∧
      (b.build now).map (fun e => e.event_time) = .ok τo ∧
      (b.build now).map (fun e => e.subject) = .ok b.subject ∧
      (b.build now).map (fun e => e.dataschema) = .ok b.dataschema ∧
      (b.build now).map (fun e => e.datacontenttype) = .ok b.datacontenttype ∧
      (b.build now).map (fun e => e.data) = .ok b.data ∧
      (b.build now).map (fun e => e.extensions) = .ok b.extensions) ∧
    (∀ (b : CloudEventV0_2Builder) (et src id : String) (τo : Option DateTimeFO),
      b.event_type = some et → b.source = some src → b.id = some id →
      validateUri src = .ok src → resolveTimeV0_2 b.time = .ok τo →
      validateUriOpt b.schemaurl = .ok b.schemaurl →
      b.build.isOk = true ∧
      b.build.map (fun e => e.event_type) = .ok et ∧
      b.build.map (fun e => e.source) = .ok src ∧
      b.build.map (fun e => e.event_id) = .ok id ∧
      b.build.map (fun e => e.event_time) = .ok τo ∧
      b.build.map (fun e => e.schema_url) = .ok b.schemaurl ∧
      b.build.map (fun e => e.contenttype) = .ok b.contenttype ∧
      b.build.map (fun e => e.data) = .ok b.data ∧
      b.build.map (fun e => e.extensions) = .ok b.extensions) := by
  constructor
  · intro now b et src id τo h1 h2 h3 h4 h5 h6
    rw [buildV1_eq_ok now b et src id τo b.dataschema h1 h2 h3 h4 h5 h6]
    exact ⟨rfl, rfl, rfl, rfl, rfl, rfl, rfl, rfl, rfl, rfl⟩
  · intro b et src id τo h1 h2 h3 h4 h5 h6
    rw [buildV0_2_eq_ok b et src id τo b.schemaurl h1 h2 h3 h4 h5 h6]
    exact ⟨rfl, rfl, rfl, rfl, rfl, rfl, rfl, rfl, rfl⟩

/-- C2 witness: the identity law at fully populated concrete builders of
both versions (including a parsed RFC3339 time). -/
theorem claim2_build_identity_witness :
    ((CloudEventV1_0Builder.build sampleNow
      ⟨some "test type", some "http://www.google.com", some "id",
        some "2019-12-04T18:33:09+00:00", some "subj", some "urn:x:y",
        some "application/json", some (Data.stringOrBinary "d"),
        some [("k", ExtensionValue.string "v")]⟩).map
      (fun e => e.event_type) = .ok "test type") ∧
    ((CloudEventV1_0Builder.build sampleNow
      ⟨some "test type", some "http://www.google.com", some "id",
        some "2019-12-04T18:33:09+00:00", some "subj", some "urn:x:y",
        some "application/json", some (Data.stringOrBinary "d"),
        some [("k", ExtensionValue.string "v")]⟩).map
      (fun e => e.event_time) = .ok (some sampleNow)) ∧
    ((CloudEventV0_2Builder.build
      ⟨some "test type", some "http://www.google.com", some "id", none,
        some "urn:x:y", some "application/json", none, none⟩).map
      (fun e => e.schema_url) = .ok (some "urn:x:y")) := by
  have hb := claim2_build_identity.1 sampleNow
    ⟨some "test type", some "http://www.google.com", some "id",
      some "2019-12-04T18:33:09+00:00", some "subj", some "urn:x:y",
      some "application/json", some (Data.stringOrBinary "d"),
      some [("k", ExtensionValue.string "v")]⟩
    "test type" "http://www.google.com" "id" (some sampleNow)
    rfl rfl rfl rfl rfl rfl
  have hb2 := claim2_build_identity.2
    ⟨some "test type", some "http://www.google.com", some "id", none,
      some "urn:x:y", some "application/json", none, none⟩
    "test type" "http://www.google.com" "id" none rfl rfl rfl rfl rfl rfl
  exact ⟨hb.2.1, hb.2.2.2.2.1, hb2.2.2.2.2.2.1⟩

/-- C3: URI rule for source and schema reference, on both builders.  When
the set source parses as an absolute URI or fails precisely with
relative-URL-without-base (`validateUri` returns it unchanged), a successful
build stores the string verbatim; when the parse fails with any other error,
build fails carrying that parse-error text (id may even be unset — the
source check runs first).  The identical rule applies to the set schema
reference (`dataschema` v1.0 / `schemaurl` v0.2) once the earlier checks
pass.  The concrete conjuncts record that `/a/b` is a relative reference
while `urn:x:y` and `mailto:a@b.com` parse as absolute URIs. -/
theorem claim3_uri_validation :
    (∀ (now : DateTimeFO) (b : CloudEventV1_0Builder) (src : String)
       (e : CloudEventV1_0), b.source = some src → validateUri src = .ok src →
      b.build now = .ok e → e.source = src) ∧
    (∀ (now : DateTimeFO) (b : CloudEventV1_0Builder) (et src msg : String),
      b.event_type = some et → b.source = some src →
      validateUri src = .error msg → b.build now = .error msg) ∧
    (∀ (now : DateTimeFO) (b : CloudEventV1_0Builder) (e : CloudEventV1_0),
      b.build now = .ok e → e.dataschema = b.dataschema) ∧
    (∀ (now : DateTimeFO) (b : CloudEventV1_0Builder)
       (et src id ds msg : String) (τo : Option DateTimeFO),
      b.event_type = some et → b.source = some src → b.id = some id →
      validateUri src = .ok src → resolveTimeV1 now b.time = .ok τo →
      b.dataschema = some ds → validateUri ds = .error msg →
      b.build now = .error msg) ∧
    (∀ (b : CloudEventV0_2Builder) (src : String) (e : CloudEventV0_2),
      b.source = some src → validateUri src = .ok src →
      b.build = .ok e → e.source = src) ∧
    (∀ (b : CloudEventV0_2Builder) (et src msg : String),
      b.event_type = some et → b.source = some src →
      validateUri src = .error msg → b.build = .error msg) ∧
    (∀ (b : CloudEventV0_2Builder) (e : CloudEventV0_2),
      b.build = .ok e → e.schemaurl = b.schemaurl) ∧
    (∀ (b : CloudEventV0_2Builder) (et src su msg : String)
       (τo : Option DateTimeFO) (id : String),
      b.event_type = some et → b.source = some src → b.id = some id →
      validateUri src = .ok src → resolveTimeV0_2 b.time = .ok τo →
      b.schemaurl = some su → validateUri su = .error msg →
      b.build = .error msg) ∧
    validateUri "/a/b" = .ok "/a/b" ∧
    Url.parse "/a/b" = .error .relativeUrlWithoutBase ∧
    validateUri "urn:x:y" = .ok "urn:x:y" ∧
    Url.parse "urn:x:y" = .ok () ∧
    validateUri "mailto:a@b.com" = .ok "mailto:a@b.com" ∧
    Url.parse "mailto:a@b.com" = .ok () := by
  refine ⟨?_, ?_, ?_, ?_, ?_, ?_, ?_, ?_, rfl, rfl, rfl, rfl, rfl, rfl⟩
  · intro now b src e h1 h2 h3
    have hinv := (buildV1_ok_inv now b e h3).2.1
    rw [h1] at hinv
    injection hinv with h4
    exact h4.symm
  · intro now b et src msg h1 h2 h3
    simp [CloudEventV1_0Builder.build, h1, h2, h3]
  · intro now b e h
    exact (buildV1_ok_inv now b e h).2.2.2.2.2.2.1
  · intro now b et src id ds msg τo h1 h2 h3 h4 h5 h6 h7
    simp [CloudEventV1_0Builder.build, h1, h2, h3, h4, h5, h6, h7,
      validateUriOpt, Except.map]
  · intro b src e h1 h2 h3
    have hinv := (buildV0_2_ok_inv b e h3).2.1
    rw [h1] at hinv
    injection hinv with h4
    exact h4.symm
  · intro b et src msg h1 h2 h3
    simp [CloudEventV0_2Builder.build, h1, h2, h3]
  · intro b e h
    exact (buildV0_2_ok_inv b e h).2.2.2.2.2.2.1
  · intro b et src su msg τo id h1 h2 h3 h4 h5 h6 h7
    simp [CloudEventV0_2Builder.build, h1, h2, h3, h4, h5, h6, h7,
      validateUriOpt, Except.map]

/-- C3 witness: a relative source is stored verbatim on a successful build;
an invalid source (`http://`, empty host) fails the build with the parse
error even though id is set; an invalid dataschema fails likewise. -/
theorem claim3_uri_validation_witness :
    CloudEventV1_0Builder.build sampleNow
      ⟨some "t", some "mailto:a@b.com", some "i", none, none, none, none, none,
        none⟩ = .ok (CloudEventV1_0.new "t" "mailto:a@b.com" "i" none none none
          none none none) ∧
    CloudEventV1_0Builder.build sampleNow
      ⟨some "t", some "http://", some "i", none, none, none, none, none, none⟩
      = .error "empty host" ∧
    CloudEventV1_0Builder.build sampleNow
      ⟨some "t", some "/a/b", some "i", none, none, some "http://", none, none,
        none⟩ = .error "empty host" := by
  refine ⟨rfl, ?_, ?_⟩
  · exact claim3_uri_validation.2.1 sampleNow _ "t" "http://" "empty host"
      rfl rfl rfl
  · exact claim3_uri_validation.2.2.2.1 sampleNow _ "t" "/a/b" "i" "http://"
      "empty host" none rfl rfl rfl rfl rfl rfl rfl

/-- C4: time handling.  On the v1.0 builder the literal token `"now"`
resolves to the wall-clock timestamp `now` and the build succeeds (given the
other fields are valid); any other set string is parsed strictly as RFC3339,
the parse error text becoming the build error.  The v0.2 builder has no
`"now"` shorthand — every set time string is parsed, and `"now"` itself is a
parse failure (concrete conjuncts, together with `"not-a-date"`).  An unset
time yields an envelope whose time accessor returns `none`. -/
theorem claim4_time_resolution :
    (∀ (now : DateTimeFO) (b : CloudEventV1_0Builder) (et src id : String),
      b.event_type = some et → b.source = some src → b.id = some id →
      validateUri src = .ok src → b.time = some "now" →
      validateUriOpt b.dataschema = .ok b.dataschema →
      (b.build now).map (fun e => e.event_time) = .ok (some now)) ∧
    (∀ (now : DateTimeFO) (b : CloudEventV1_0Builder) (et src id t msg : String),
      b.event_type = some et → b.source = some src → b.id = some id →
      validateUri src = .ok src → b.time = some t → t ≠ "now" →
      rfc3339Parse t = .error msg → b.build now = .error msg) ∧
    (∀ (now : DateTimeFO) (b : CloudEventV1_0Builder) (et src id t : String)
       (τ : DateTimeFO),
      b.event_type = some et → b.source = some src → b.id = some id →
      validateUri src = .ok src → b.time = some t → t ≠ "now" →
      rfc3339Parse t = .ok τ → validateUriOpt b.dataschema = .ok b.dataschema →
      (b.build now).map (fun e => e.event_time) = .ok (some τ)) ∧
    (∀ (now : DateTimeFO) (b : CloudEventV1_0Builder) (e : CloudEventV1_0),
      b.build now = .ok e → b.time = none → e.event_time = none) ∧
    (∀ (b : CloudEventV0_2Builder) (et src id t msg : String),
      b.event_type = some et → b.source = some src → b.id = some id →
      validateUri src = .ok src → b.time = some t →
      rfc3339Parse t = .error msg → b.build = .error msg) ∧
    (∀ (b : CloudEventV0_2Builder) (e : CloudEventV0_2),
      b.build = .ok e → b.time = none → e.event_time = none) ∧
    rfc3339Parse "now" = .error "input contains invalid characters" ∧
    rfc3339Parse "not-a-date" = .error "input contains invalid characters" := by
  refine ⟨?_, ?_, ?_, ?_, ?_, ?_, rfl, rfl⟩
  · intro now b et src id h1 h2 h3 h4 h5 h6
    have h7 : resolveTimeV1 now b.time = .ok (some now) := by
      simp [resolveTimeV1, h5]
    rw [buildV1_eq_ok now b et src id (some now) b.dataschema h1 h2 h3 h4 h7 h6]
    rfl
  · intro now b et src id t msg h1 h2 h3 h4 h5 h6 h7
    simp [CloudEventV1_0Builder.build, h1, h2, h3, h4, h5, h6, h7,
      resolveTimeV1, Except.map]
  · intro now b et src id t τ h1 h2 h3 h4 h5 h6 h7 h8
    have h9 : resolveTimeV1 now b.time = .ok (some τ) := by
      simp [resolveTimeV1, h5, h6, h7, Except.map]
    rw [buildV1_eq_ok now b et src id (some τ) b.dataschema h1 h2 h3 h4 h9 h8]
    rfl
  · intro now b e h1 h2
    have hinv := (buildV1_ok_inv now b e h1).2.2.2.2.2.1
    rw [h2] at hinv
    injection hinv with h3
    exact h3.symm
  · intro b et src id t msg h1 h2 h3 h4 h5 h6
    simp [CloudEventV0_2Builder.build, h1, h2, h3, h4, h5, h6,
      resolveTimeV0_2, Except.map]
  · intro b e h1 h2
    have hinv := (buildV0_2_ok_inv b e h1).2.2.2.2.2.1
    rw [h2] at hinv
    injection hinv with h3
    exact h3.symm

/-- C4 witness: `"now"` on the v1.0 builder resolves to the wall clock;
`"not-a-date"` fails the v1.0 build; `"now"` fails the v0.2 build (no
shorthand there). -/
theorem claim4_time_resolution_witness :
    (CloudEventV1_0Builder.build sampleNow
      ⟨some "t", some "/a", some "i", some "now", none, none, none, none, none⟩).map
      (fun e => e.event_time) = .ok (some sampleNow) ∧
    CloudEventV1_0Builder.build sampleNow
      ⟨some "t", some "/a", some "i", some "not-a-date", none, none, none, none,
        none⟩ = .error "input contains invalid characters" ∧
    CloudEventV0_2Builder.build
      ⟨some "t", some "/a", some "i", some "now", none, none, none, none⟩
      = .error "input contains invalid characters" := by
  refine ⟨?_, ?_, ?_⟩
  · exact claim4_time_resolution.1 sampleNow _ "t" "/a" "i" rfl rfl rfl rfl
      rfl rfl
  · exact claim4_time_resolution.2.1 sampleNow _ "t" "/a" "i" "not-a-date"
      "input contains invalid characters" rfl rfl rfl rfl rfl (by decide) rfl
  · exact claim4_time_resolution.2.2.2.2.1 _ "t" "/a" "i" "now"
      "input contains invalid characters" rfl rfl rfl rfl rfl rfl

/-- C5: every envelope produced by a successful `build()` carries the fixed
spec version of its builder ("1.0" / "0.2" — the constant is hard-coded in
the `new` constructor, so no builder slot can influence it), and satisfies
the validation invariants: its source, and its schema reference when set,
pass the URI-or-relative check.  The required fields are total `String`
fields of the envelope, so they are present by construction. -/
theorem claim5_specversion_invariant :
    (∀ (now : DateTimeFO) (b : CloudEventV1_0Builder) (e : CloudEventV1_0),
      b.build now = .ok e →
      e.specversion = "1.0" ∧ validateUri e.source = .ok e.source ∧
      validateUriOpt e.dataschema = .ok e.dataschema) ∧
    (∀ (b : CloudEventV0_2Builder) (e : CloudEventV0_2),
      b.build = .ok e →
      e.specversion = "0.2" ∧ validateUri e.source = .ok e.source ∧
      validateUriOpt e.schemaurl = .ok e.schemaurl) := by
  constructor
  · intro now b e h
    obtain ⟨_, _, _, h4, h5, _, h7, h8, _⟩ := buildV1_ok_inv now b e h
    refine ⟨h4, h5, ?_⟩
    rw [h7]
    rw [h7] at h8
    exact h8
  · intro b e h
    obtain ⟨_, _, _, h4, h5, _, h7, h8, _⟩ := buildV0_2_ok_inv b e h
    refine ⟨h4, h5, ?_⟩
    rw [h7]
    rw [h7] at h8
    exact h8

/-- C5 witness: concrete builds of both versions carry their fixed spec
version and validated fields. -/
theorem claim5_specversion_invariant_witness :
    c8Event.specversion = "1.0" ∧ validateUri c8Event.source = .ok c8Event.source ∧
    validateUriOpt c8Event.dataschema = .ok c8Event.dataschema ∧
    (CloudEventV0_2.new "t" "/a" "i" none none none none none).specversion
      = "0.2" := by
  have h1 := claim5_specversion_invariant.1 sampleNow c8Builder c8Event rfl
  have h2 := claim5_specversion_invariant.2
    ⟨some "t", some "/a", some "i", none, none, none, none, none⟩
    (CloudEventV0_2.new "t" "/a" "i" none none none none none) rfl
  exact ⟨h1.1, h1.2.1, h1.2.2, h2.1⟩

/-- C6 counterexample: a buildable v1.0 envelope whose data payload is the
structured value `Json.str "test"` (as produced by
`Data::from_serializable("test")`).  Its JSON encoding renders the data as a
bare JSON string, which the untagged `Data` deserializer necessarily reads
back as the `stringOrBinary` variant, so `decode (encode e) ≠ e`. -/
theorem claim6_counterexample :
    CloudEventV1_0Builder.build sampleNow c6Builder = .ok c6Event ∧
    CloudEventV1_0.decode (CloudEventV1_0.encode c6Event) = some c6Decoded ∧
    c6Decoded ≠ c6Event := by
  refine ⟨rfl, rfl, fun h => ?_⟩
  have h2 := congrArg CloudEventV1_0.data h
  simp [c6Decoded, c6Event, CloudEventV1_0.new] at h2

/-- C6 (amended): `decode (encode e) = e` for every envelope `e` of either
version producible by a successful `build()` (under a sane wall clock),
provided its data payload round-trips under the untagged encoding (it is not
an `object` holding a bare JSON string or JSON null) and likewise every
extension value (not an `object` holding a bare JSON string). -/
theorem claim6_roundtrip :
    (∀ (now : DateTimeFO) (b : CloudEventV1_0Builder) (e : CloudEventV1_0),
      now.valid = true → b.build now = .ok e → dataRT e.data = true →
      extsRT e.extensions = true →
      CloudEventV1_0.decode (CloudEventV1_0.encode e) = some e) ∧
    (∀ (b : CloudEventV0_2Builder) (e : CloudEventV0_2),
      b.build = .ok e → dataRT e.data = true → extsRT e.extensions = true →
      CloudEventV0_2.decode (CloudEventV0_2.encode e) = some e) := by
  constructor
  · intro now b e hn h hd he
    have htime := (buildV1_ok_inv now b e h).2.2.2.2.2.1
    exact decodeV1_encodeV1 e (resolveTimeV1_valid now b.time e.time hn htime)
      hd he
  · intro b e h hd he
    have htime := (buildV0_2_ok_inv b e h).2.2.2.2.2.1
    exact decodeV0_2_encodeV0_2 e (resolveTimeV0_2_valid b.time e.time htime)
      hd he

/-- C6 witness: round-trip at concrete built envelopes of both versions,
with a parsed time, a structured (non-string) data payload and extension
values. -/
theorem claim6_roundtrip_witness :
    CloudEventV1_0.decode (CloudEventV1_0.encode (CloudEventV1_0.new "t" "/a"
      "i" (some sampleNow) (some "s") (some "urn:x:y") (some "application/json")
      (some (Data.object (Json.obj [("x", Json.bool true)])))
      (some [("k", ExtensionValue.string "v"),
             ("l", ExtensionValue.object (Json.num 3))])))
      = some (CloudEventV1_0.new "t" "/a" "i" (some sampleNow) (some "s")
        (some "urn:x:y") (some "application/json")
        (some (Data.object (Json.obj [("x", Json.bool true)])))
        (some [("k", ExtensionValue.string "v"),
               ("l", ExtensionValue.object (Json.num 3))])) ∧
    CloudEventV0_2.decode (CloudEventV0_2.encode (CloudEventV0_2.new "t" "/a"
      "i" none none (some "application/json") (some (Data.stringOrBinary "d"))
      none))
      = some (CloudEventV0_2.new "t" "/a" "i" none none
        (some "application/json") (some (Data.stringOrBinary "d")) none) := by
  constructor
  · exact claim6_roundtrip.1 sampleNow
      ⟨some "t", some "/a", some "i", some "2019-12-04T18:33:09+00:00",
        some "s", some "urn:x:y", some "application/json",
        some (Data.object (Json.obj [("x", Json.bool true)])),
        some [("k", ExtensionValue.string "v"),
              ("l", ExtensionValue.object (Json.num 3))]⟩
      _ (by decide) rfl (by decide) (by decide)
  · exact claim6_roundtrip.2
      ⟨some "t", some "/a", some "i", none, none, some "application/json",
        some (Data.stringOrBinary "d"), none⟩
      _ rfl (by decide) (by decide)

/-- C7: the untagged wrapper decoder tries the V1.0 shape first and commits
to it whenever it decodes; only when the V1.0 decode fails does it fall back
to the V0.2 shape.  Consequently any payload decodable under both shapes
yields the `V1_0` variant. -/
theorem claim7_decode_priority :
    (∀ (j : Json) (e1 : CloudEventV1_0), CloudEventV1_0.decode j = some e1 →
      CloudEvent.decode j = some (CloudEvent.V1_0 e1)) ∧
    (∀ (j : Json), CloudEventV1_0.decode j = none →
      CloudEvent.decode j = (CloudEventV0_2.decode j).map CloudEvent.V0_2) := by
  constructor
  · intro j e1 h
    simp [CloudEvent.decode, h]
  · intro j h
    simp [CloudEvent.decode, h]

/-- C7 witness: a v0.2-shaped payload (with `schemaurl`) decodes under both
concrete shapes — the v1.0 decoder simply ignores the unknown key — and the
wrapper commits to the first-tried `V1_0` variant. -/
theorem claim7_decode_priority_witness :
    CloudEventV1_0.decode c7Json = some c7V1Event ∧
    CloudEventV0_2.decode c7Json = some c7V02Event ∧
    CloudEvent.decode c7Json = some (CloudEvent.V1_0 c7V1Event) := by
  exact ⟨rfl, rfl, claim7_decode_priority.1 c7Json c7V1Event rfl⟩

/-- C8: the literal scenario.  Building (v1.0) with exactly
event type "test type", source "http://www.google.com", id "id" and
datacontenttype "application/json" succeeds, and the rendered JSON encoding
is exactly the expected object, with the keys data, time, subject and
dataschema entirely absent from the encoded field list. -/
theorem claim8_literal_encoding :
    CloudEventV1_0Builder.build sampleNow c8Builder = .ok c8Event ∧
    Json.render (CloudEventV1_0.encode c8Event) =
      "\x7b\"type\":\"test type\",\"specversion\":\"1.0\",\"source\":\"http://www.google.com\",\"id\":\"id\",\"datacontenttype\":\"application/json\"\x7d" ∧
    lookupField c8Event.encodeFields "data" = none ∧
    lookupField c8Event.encodeFields "time" = none ∧
    lookupField c8Event.encodeFields "subject" = none ∧
    lookupField c8Event.encodeFields "dataschema" = none := by
  exact ⟨rfl, rfl, rfl, rfl, rfl, rfl⟩

theorem keys_optField_ne (key k : String) (v : Option Json) (h : k ≠ key) :
    List.count key ((optField k v).map Prod.fst) = 0 := by
  cases v <;> simp [optField, List.count_cons, List.count_nil, h]

theorem keys_optField_self (key : String) (j : Json) :
    List.count key ((optField key (some j)).map Prod.fst) = 1 := by
  simp [optField]

theorem mem_keys_optField (key k : String) (v : Option Json)
    (h : key ∈ (optField k v).map Prod.fst) : key = k := by
  cases v with
  | none => simp [optField] at h
  | some j => simpa [optField] using h

theorem keys_optField_subset (k : String) (v : Option Json) :
    (optField k v).map Prod.fst ⊆ [k] := by
  cases v with
  | none => simp [optField]
  | some j => simp [optField]

/-- C10: extension attributes are not flattened into top-level siblings.
When the extensions map is set, the encoded object carries exactly one
top-level key "extensions" whose value is the object of all extension
key/value pairs; when it is unset the key is entirely absent; and in every
case the top-level keys come only from the fixed field-name list. -/
theorem claim10_extensions_nested :
    (∀ (e : CloudEventV1_0) (m : List (String × ExtensionValue)),
      e.extensions = some m →
      lookupField e.encodeFields "extensions" =
        some (Json.obj (m.map (fun kv => (kv.1, encodeExtensionValue kv.2)))) ∧
      List.count "extensions" (e.encodeFields.map Prod.fst) = 1) ∧
    (∀ (e : CloudEventV1_0), e.extensions = none →
      "extensions" ∉ e.encodeFields.map Prod.fst) ∧
    (∀ (e : CloudEventV1_0), e.encodeFields.map Prod.fst ⊆
      ["type", "specversion", "source", "id", "time", "subject", "dataschema",
       "datacontenttype", "data", "extensions"]) ∧
    (∀ (e : CloudEventV0_2) (m : List (String × ExtensionValue)),
      e.extensions = some m →
      lookupField e.encodeFields "extensions" =
        some (Json.obj (m.map (fun kv => (kv.1, encodeExtensionValue kv.2)))) ∧
      List.count "extensions" (e.encodeFields.map Prod.fst) = 1) ∧
    (∀ (e : CloudEventV0_2), e.extensions = none →
      "extensions" ∉ e.encodeFields.map Prod.fst) ∧
    (∀ (e : CloudEventV0_2), e.encodeFields.map Prod.fst ⊆
      ["type", "specversion", "source", "id", "time", "schemaurl",
       "contenttype", "data", "extensions"]) := by
  refine ⟨?_, ?_, ?_, ?_, ?_, ?_⟩
  · intro e m hm
    constructor
    · simpa [hm] using encV1_lookup_extensions e
    · simp only [CloudEventV1_0.encodeFields, hm, Option.map_some',
        List.map_append, List.count_append]
      rw [keys_optField_ne _ "time" _ (by decide),
          keys_optField_ne _ "subject" _ (by decide),
          keys_optField_ne _ "dataschema" _ (by decide),
          keys_optField_ne _ "datacontenttype" _ (by decide),
          keys_optField_ne _ "data" _ (by decide),
          keys_optField_self _ _]
      simp [List.count_cons, List.count_nil]
  · intro e hm
    refine List.count_eq_zero.mp ?_
    simp only [CloudEventV1_0.encodeFields, hm, Option.map_none',
      List.map_append, List.count_append]
    rw [keys_optField_ne _ "time" _ (by decide),
        keys_optField_ne _ "subject" _ (by decide),
        keys_optField_ne _ "dataschema" _ (by decide),
        keys_optField_ne _ "datacontenttype" _ (by decide),
        keys_optField_ne _ "data" _ (by decide)]
    simp [optField, List.count_cons, List.count_nil]
  · intro e
    simp only [CloudEventV1_0.encodeFields, List.map_append, List.map_cons,
      List.map_nil]
    refine List.append_subset.mpr
      ⟨?_, (keys_optField_subset "extensions" _).trans (by decide)⟩
    refine List.append_subset.mpr
      ⟨?_, (keys_optField_subset "data" _).trans (by decide)⟩
    refine List.append_subset.mpr
      ⟨?_, (keys_optField_subset "datacontenttype" _).trans (by decide)⟩
    refine List.append_subset.mpr
      ⟨?_, (keys_optField_subset "dataschema" _).trans (by decide)⟩
    refine List.append_subset.mpr
      ⟨?_, (keys_optField_subset "subject" _).trans (by decide)⟩
    refine List.append_subset.mpr
      ⟨by decide, (keys_optField_subset "time" _).trans (by decide)⟩
  · intro e m hm
    constructor
    · simpa [hm] using encV02_lookup_extensions e
    · simp only [CloudEventV0_2.encodeFields, hm, Option.map_some',
        List.map_append, List.count_append]
      rw [keys_optField_ne _ "time" _ (by decide),
          keys_optField_ne _ "schemaurl" _ (by decide),
          keys_optField_ne _ "contenttype" _ (by decide),
          keys_optField_ne _ "data" _ (by decide),
          keys_optField_self _ _]
      simp [List.count_cons, List.count_nil]
  · intro e hm
    refine List.count_eq_zero.mp ?_
    simp only [CloudEventV0_2.encodeFields, hm, Option.map_none',
      List.map_append, List.count_append]
    rw [keys_optField_ne _ "time" _ (by decide),
        keys_optField_ne _ "schemaurl" _ (by decide),
        keys_optField_ne _ "contenttype" _ (by decide),
        keys_optField_ne _ "data" _ (by decide)]
    simp [optField, List.count_cons, List.count_nil]
  · intro e
    simp only [CloudEventV0_2.encodeFields, List.map_append, List.map_cons,
      List.map_nil]
    refine List.append_subset.mpr
      ⟨?_, (keys_optField_subset "extensions" _).trans (by decide)⟩
    refine List.append_subset.mpr
      ⟨?_, (keys_optField_subset "data" _).trans (by decide)⟩
    refine List.append_subset.mpr
      ⟨?_, (keys_optField_subset "contenttype" _).trans (by decide)⟩
    refine List.append_subset.mpr
      ⟨?_, (keys_optField_subset "schemaurl" _).trans (by decide)⟩
    refine List.append_subset.mpr
      ⟨by decide, (keys_optField_subset "time" _).trans (by decide)⟩

/-- C10 witness: a concrete envelope with one extension encodes it under the
single "extensions" key; the same envelope with no extensions omits the key. -/
theorem claim10_extensions_nested_witness :
    lookupField (CloudEventV1_0.new "t" "/a" "i" none none none none none
      (some [("myext", ExtensionValue.string "v")])).encodeFields "extensions" =
      some (Json.obj [("myext", Json.str "v")]) ∧
    "extensions" ∉ (CloudEventV1_0.new "t" "/a" "i" none none none none none
      none).encodeFields.map Prod.fst := by
  constructor
  · exact (claim10_extensions_nested.1
      (CloudEventV1_0.new "t" "/a" "i" none none none none none
        (some [("myext", ExtensionValue.string "v")]))
      [("myext", ExtensionValue.string "v")] rfl).1
  · exact claim10_extensions_nested.2.1
      (CloudEventV1_0.new "t" "/a" "i" none none none none none none) rfl
